import Mathlib

/-!
Verification of the youtube-to-mp3 downloader core (src/src/index.ts).

JavaScript strings are modelled through their character lists (`String.data`);
the JS string operations used by the source (`split`, `trim`, `indexOf`,
global-regex `replace`) are given executable shallow embeddings below, each
matching the ECMAScript behaviour on the inputs the program feeds them.
-/

namespace YtMp3

/-- Model of JS `String.prototype.split` with a one-character separator,
acting on character lists: `"" → [""]`, separators at the ends produce
empty segments, exactly as in ECMAScript. -/
def splitOnChar (c : Char) : List Char → List (List Char)
  | [] => [[]]
  | x :: xs =>
    if x = c then
      [] :: splitOnChar c xs
    else
      match splitOnChar c xs with
      | [] => [[x]]
      | y :: ys => (x :: y) :: ys

/-- JS `videoTitle.split('-')` lifted to `String`. -/
def jsSplit (c : Char) (s : String) : List String :=
  (splitOnChar c s.data).map (fun l => ⟨l⟩)

/-- The prefix of `s` before its first occurrence of `c` (all of `s` when
`c` does not occur): the head of the JS split. -/
def beforeChar (c : Char) (s : String) : String :=
  ⟨(splitOnChar c s.data).headD []⟩

/-- Whitespace recognised by JS `String.prototype.trim` (ASCII part; the
source only ever trims titles, and the behaviour proved about it is
whitespace-set-generic). -/
def jsWhitespace (c : Char) : Bool :=
  c = ' ' || c = '\t' || c = '\n' || c = '\r' || c = Char.ofNat 11 || c = Char.ofNat 12

/-- Model of JS `String.prototype.trim`: drop leading and trailing whitespace. -/
def jsTrim (s : String) : String :=
  ⟨((s.data.dropWhile jsWhitespace).reverse.dropWhile jsWhitespace).reverse⟩

/-- Model of JS `s.indexOf(c) > -1`: the string contains the character. -/
def jsIncludes (c : Char) (s : String) : Bool :=
  s.data.contains c

/-- Model of JS `s.replace(/c/g, r)`: replace every occurrence of the
character `c` by the string `r`. -/
def jsReplaceAll (c : Char) (r : String) (s : String) : String :=
  ⟨s.data.foldr (fun x acc => if x = c then r.data ++ acc else x :: acc) []⟩

/-- `DEFAULT_BITRATE` constant of the source. -/
def DEFAULT_BITRATE : Nat := 192

/-- `CHAR_REPLACES` of the source: seven global single-character regex
replacements, each deleting the character. The first and the third entry are
both the ASCII apostrophe (byte 0x27 in the source, twice); no curly quote
appears. -/
def CHAR_REPLACES : List (Char × String) :=
  [(Char.ofNat 39, ""), ('|', ""), (Char.ofNat 39, ""), ('/', ""),
   ('?', ""), (':', ""), (';', "")]

/-- `cleanFileName` of the source: apply the `CHAR_REPLACES` replacements in
order. -/
def cleanFileName (fileName : String) : String :=
  CHAR_REPLACES.foldl (fun acc p => jsReplaceAll p.1 p.2 acc) fileName

/-- The artist/title derivation of `_downloadByInfo` (lines 102–118): both
start as "Unknown"; if the cleaned title contains a hyphen it is split on
every hyphen and, when at least two segments result, artist and title are the
trimmed first and second segments; with no hyphen the title is the whole
cleaned title. -/
def extractMeta (videoTitle : String) : String × String :=
  let artist := "Unknown"
  let title := "Unknown"
  if jsIncludes '-' videoTitle then
    let temp := jsSplit '-' videoTitle
    if 2 ≤ temp.length then
      (jsTrim (temp.getD 0 ""), jsTrim (temp.getD 1 ""))
    else
      (artist, title)
  else
    (artist, videoTitle)

/-- `requestOptions` default of the source (`{ maxRedirects: 5 }`). -/
structure RequestOptions where
  maxRedirects : Nat
deriving DecidableEq, Repr

/-- The resolved `IOptions` object held by the downloader. A field value of
`none` stands for a JS absent-or-`undefined` field — the two are
indistinguishable to every later read (`??`, truthiness). -/
structure IOptions where
  fileName : Option String
  ffmpegPath : Option String
  outputPath : Option String
  youtubeVideoQuality : Option String
  queueParallelism : Option Nat
  progressTimeout : Option Nat
  allowWebm : Option Bool
  requestOptions : Option RequestOptions
  outputOptions : Option (List String)
deriving DecidableEq, Repr

/-- A caller-supplied options object, keeping the JS distinction between an
absent key (`none`), a key present with value `undefined` (`some none`) and a
key present with a value (`some (some v)`), because `Object.assign` copies
present-but-`undefined` keys. -/
structure CallerOptions where
  fileName : Option (Option String) := none
  ffmpegPath : Option (Option String) := none
  outputPath : Option (Option String) := none
  youtubeVideoQuality : Option (Option String) := none
  queueParallelism : Option (Option Nat) := none
  progressTimeout : Option (Option Nat) := none
  allowWebm : Option (Option Bool) := none
  requestOptions : Option (Option RequestOptions) := none
  outputOptions : Option (Option (List String)) := none
deriving DecidableEq, Repr

/-- `DEFAULT_OPTIONS` of the source; `process.cwd()` is an external input and
is passed in as `cwd`. `fileName` and `ffmpegPath` have no default key. -/
def DEFAULT_OPTIONS (cwd : String) : IOptions :=
  { fileName := none
    ffmpegPath := none
    outputPath := some cwd
    youtubeVideoQuality := some "highestaudio"
    queueParallelism := some 1
    progressTimeout := some 1000
    allowWebm := some false
    requestOptions := some { maxRedirects := 5 }
    outputOptions := some [] }

/-- One field of `Object.assign({}, defaults, options)`: a key present in
`options` (even with value `undefined`) wins; an absent key keeps the
default. -/
def assignField {α : Type} (d : Option α) : Option (Option α) → Option α
  | none => d
  | some v => v

/-- The constructor's `Object.assign({}, DEFAULT_OPTIONS, options ?? {})`. -/
def mergeOptions (cwd : String) (options : Option CallerOptions) : IOptions :=
  let o := options.getD {}
  { fileName := assignField (DEFAULT_OPTIONS cwd).fileName o.fileName
    ffmpegPath := assignField (DEFAULT_OPTIONS cwd).ffmpegPath o.ffmpegPath
    outputPath := assignField (DEFAULT_OPTIONS cwd).outputPath o.outputPath
    youtubeVideoQuality :=
      assignField (DEFAULT_OPTIONS cwd).youtubeVideoQuality o.youtubeVideoQuality
    queueParallelism := assignField (DEFAULT_OPTIONS cwd).queueParallelism o.queueParallelism
    progressTimeout := assignField (DEFAULT_OPTIONS cwd).progressTimeout o.progressTimeout
    allowWebm := assignField (DEFAULT_OPTIONS cwd).allowWebm o.allowWebm
    requestOptions := assignField (DEFAULT_OPTIONS cwd).requestOptions o.requestOptions
    outputOptions := assignField (DEFAULT_OPTIONS cwd).outputOptions o.outputOptions }

/-- One available format variant of the resolved descriptor: container type
and optional audio bitrate (`ytdl` formats expose `audioBitrate?: number`). -/
structure Format where
  container : String
  audioBitrate : Option Nat
deriving DecidableEq, Repr

/-- JS truthiness of `format.audioBitrate` (`!!format.audioBitrate`):
present and non-zero. -/
def audioBitrateTruthy (f : Format) : Bool :=
  match f.audioBitrate with
  | some b => b ≠ 0
  | none => false

/-- The bitrate expression of `_downloadByInfo` (line 170):
`info.formats.find(f => !!f.audioBitrate)!.audioBitrate ?? DEFAULT_BITRATE`.
When `find` yields no format, the non-null-asserted property access
`undefined.audioBitrate` throws a `TypeError`, modelled as `Except.error`. -/
def resolveBitrate (formats : List Format) : Except Unit Nat :=
  match formats.find? audioBitrateTruthy with
  | some f => .ok (f.audioBitrate.getD DEFAULT_BITRATE)
  | none => .error ()

/-- Model of Node `path.join` on two segments free of `.`/`..`/extra
separators (the only normalisation-relevant inputs the source produces):
`path.join("", b) = b`, otherwise the segments joined by the separator. -/
def pathJoin (a b : String) : String :=
  if a = "" then b else a ++ "/" ++ b

/-- The filename component of `_downloadByInfo` (lines 120–123):
`options.fileName ?? ((sanitizeFilename(videoTitle) || videoId) + ".mp3")`.
`sanitizeFilename` is the external sanitize-filename package; its output on
the cleaned title is passed in as `sanitized`. JS `||` picks `videoId`
exactly when `sanitized` is the empty string. -/
def downloadBaseName (fileNameOpt : Option String) (sanitized videoId : String) : String :=
  match fileNameOpt with
  | some f => f
  | none => (if sanitized = "" then videoId else sanitized) ++ ".mp3"

/-- The full output path of `_downloadByInfo`:
`path.join(options.outputPath ?? '', baseName)`. -/
def outputFilePath (opts : IOptions) (sanitized videoId : String) : String :=
  pathJoin (opts.outputPath.getD "") (downloadBaseName opts.fileName sanitized videoId)

/-- A thumbnail entry of the descriptor (`{ url: string }`). -/
structure Thumbnail where
  url : String
deriving DecidableEq, Repr

/-- The legacy `videoDetails.thumbnail` object (`{ thumbnails: [...] }`). -/
structure ThumbnailDetails where
  thumbnails : List Thumbnail
deriving DecidableEq, Repr

/-- The fields of `ytdl`'s `videoDetails` used by `_downloadByInfo`.
`thumbnails := none` models an absent/`undefined` array; `some []` models a
present empty array, which is truthy in JS. -/
structure VideoDetails where
  title : String
  videoId : String
  thumbnails : Option (List Thumbnail)
  thumbnail : Option ThumbnailDetails
deriving DecidableEq, Repr

/-- The thumbnail derivation of `_downloadByInfo` (lines 104–108):
`thumbnails ? thumbnails[0].url : thumbnail?.thumbnails[0]?.url`.
A present `thumbnails` array (truthy even when empty) takes the first
branch, where `thumbnails[0].url` on an empty array is a thrown `TypeError`
(`Except.error`); otherwise the optional-chained fallback yields an optional
url. -/
def deriveThumbnail (vd : VideoDetails) : Except Unit (Option String) :=
  match vd.thumbnails with
  | some ts =>
    match ts with
    | t :: _ => .ok (some t.url)
    | [] => .error ()
  | none =>
    .ok (vd.thumbnail.bind (fun td => (td.thumbnails.head?).map Thumbnail.url))

/-- One `progress-stream` sample, as consumed by the `progress` listener. -/
structure ProgressSample where
  percentage : ℚ
  transferred : Nat
  length : Nat
  remaining : Nat
  eta : Nat
  runtime : Nat
  delta : Nat
  speed : ℚ
deriving DecidableEq, Repr

/-- `IResultStats` of the source. -/
structure IResultStats where
  transferredBytes : Nat
  runtime : Nat
  averageSpeed : ℚ
deriving DecidableEq, Repr

/-- Model of `parseFloat(speed.toFixed(2))`: rounding to the nearest
hundredth (ties away from zero for nonnegative speeds, as `toFixed`
rounds). -/
def toFixed2 (q : ℚ) : ℚ :=
  (⌊q * 100 + 1 / 2⌋ : ℚ) / 100

/-- The stats constructed by the `progress` listener from a 100% sample
(lines 146–152). -/
def statsOfSample (p : ProgressSample) : IResultStats :=
  { transferredBytes := p.transferred
    runtime := p.runtime
    averageSpeed := toFixed2 p.speed }

/-- The run of the `progress` listener over the run's sample sequence: the
`stats` local starts undefined (`none`) and is overwritten by each sample
whose `percentage === 100`. -/
def captureStats (samples : List ProgressSample) : Option IResultStats :=
  samples.foldl
    (fun acc p => if p.percentage = 100 then some (statsOfSample p) else acc)
    none

/-- `IResult` of the source; `stats` is `Option` because the TS local is
left `undefined` when no 100% sample arrived. -/
structure IResult where
  videoId : String
  stats : Option IResultStats
  file : String
  youtubeUrl : String
  videoTitle : String
  artist : String
  title : String
  thumbnail : Option String
deriving DecidableEq, Repr

/-- `BASE_URL` of the source. -/
def BASE_URL : String := "https://www.youtube.com/watch?v="

/-- The result object assembled in the encoder's `end` handler
(lines 180–190), given the run's observed progress samples. -/
def buildResult (videoId : String) (opts : IOptions) (vd : VideoDetails)
    (sanitized : String) (thumbnail : Option String)
    (samples : List ProgressSample) : IResult :=
  let videoTitle := cleanFileName vd.title
  let m := extractMeta videoTitle
  { videoId := videoId
    stats := captureStats samples
    file := outputFilePath opts sanitized vd.videoId
    youtubeUrl := BASE_URL ++ videoId
    videoTitle := videoTitle
    artist := m.1
    title := m.2
    thumbnail := thumbnail }

/-- A filesystem state for `_ensureDir`: the set of existing directories,
each one a list of path components (`[]` is the root / current directory,
which always exists). -/
abbrev FS := List (List String)

/-- `existsSync` on the model filesystem. -/
def existsSync (fs : FS) (p : List String) : Bool :=
  List.contains fs p

/-- Node `mkdirSync(dir)` without the `recursive` option: fails with
`EEXIST` when the directory exists and with `ENOENT` when its parent does
not exist; otherwise adds the single directory. -/
def mkdirSync (fs : FS) (p : List String) : Except Unit FS :=
  if existsSync fs p then .error ()
  else if existsSync fs p.dropLast then .ok (p :: fs)
  else .error ()

/-- `_ensureDir` of the source (lines 94–97):
`!existsSync(dir) && mkdirSync(dir)` — create only when absent. -/
def ensureDir (fs : FS) (p : List String) : Except Unit FS :=
  if existsSync fs p then .ok fs else mkdirSync fs p

/-! ## Helper lemmas about the split model -/

theorem splitOnChar_ne_nil (c : Char) (l : List Char) : splitOnChar c l ≠ [] := by
  cases l with
  | nil => simp [splitOnChar]
  | cons x xs =>
    rw [splitOnChar]
    split
    · simp
    · split
      · simp
      · simp

theorem splitOnChar_append (c : Char) (a b : List Char) (h : c ∉ a) :
    splitOnChar c (a ++ c :: b) = a :: splitOnChar c b := by
  induction a with
  | nil => simp [splitOnChar]
  | cons x xs ih =>
    have hx : ¬ x = c := fun e => h (e ▸ List.mem_cons_self x xs)
    have hxs : c ∉ xs := fun m => h (List.mem_cons_of_mem _ m)
    rw [List.cons_append, splitOnChar, if_neg hx, ih hxs]

theorem two_le_splitOnChar_length (c : Char) (l : List Char) (h : c ∈ l) :
    2 ≤ (splitOnChar c l).length := by
  induction l with
  | nil => cases h
  | cons x xs ih =>
    rw [splitOnChar]
    by_cases hx : x = c
    · rw [if_pos hx]
      have h1 : 0 < (splitOnChar c xs).length :=
        List.length_pos.mpr (splitOnChar_ne_nil c xs)
      simp only [List.length_cons]
      omega
    · rw [if_neg hx]
      have hm : c ∈ xs := by
        rcases List.mem_cons.mp h with h1 | h1
        · exact absurd h1.symm hx
        · exact h1
      have h2 := ih hm
      cases hr : splitOnChar c xs with
      | nil => exact absurd hr (splitOnChar_ne_nil c xs)
      | cons y ys =>
        rw [hr] at h2
        simp only [List.length_cons] at h2 ⊢
        omega

theorem contains_of_mem {c : Char} {l : List Char} (h : c ∈ l) :
    l.contains c = true := by
  simp [List.contains]
  exact h

/-! ## Claim theorems -/

/-- C1 (counterexample): on the cleaned title `"a-b-c"` the code derives
title `"b"`, not the claimed `"b-c"` (the trimmed text of everything after
the first hyphen). -/
theorem c1_counterexample :
    extractMeta "a-b-c" = ("a", "b") ∧ jsTrim "b-c" = "b-c" ∧ ("b" : String) ≠ "b-c" := by
  refine ⟨by decide, by decide, by decide⟩

/-- C1 (amended): for a cleaned title of the form `a ++ "-" ++ b` with no
hyphen in `a`, the artist is the trimmed text before the first hyphen, and
the title is the trimmed text strictly between the first hyphen and the
next one (to the end when `b` has no further hyphen) — the text after a
second hyphen is dropped. -/
theorem c1_title_is_second_segment (a b : String) (h : ('-' : Char) ∉ a.data) :
    extractMeta (a ++ "-" ++ b) = (jsTrim a, jsTrim (beforeChar '-' b)) := by
  have hdata : (a ++ "-" ++ b).data = a.data ++ '-' :: b.data := by
    rw [String.data_append, String.data_append, List.append_assoc]
    rfl
  have hsplit : splitOnChar '-' ((a ++ "-" ++ b).data) = a.data :: splitOnChar '-' b.data := by
    rw [hdata]
    exact splitOnChar_append '-' a.data b.data h
  have hinc : jsIncludes '-' (a ++ "-" ++ b) = true := by
    rw [jsIncludes, hdata]
    exact contains_of_mem (List.mem_append_right _ (List.mem_cons_self _ _))
  obtain ⟨y, ys, hys⟩ : ∃ y ys, splitOnChar '-' b.data = y :: ys := by
    cases hr : splitOnChar '-' b.data with
    | nil => exact absurd hr (splitOnChar_ne_nil _ _)
    | cons y ys => exact ⟨y, ys, rfl⟩
  rw [extractMeta]
  simp only [hinc, if_true, jsSplit, hsplit, hys, List.map_cons, List.length_cons]
  simp only [beforeChar, hys, List.headD_cons]
  split
  · rfl
  · omega

/-- C2 (counterexample): the cleaned title `"-abc"` contains a hyphen and
its split has only one non-empty trimmed segment, yet the code derives
artist `""` and title `"abc"`, not the claimed `"Unknown"` /
whole-cleaned-title pair. -/
theorem c2_counterexample :
    jsIncludes '-' "-abc" = true ∧
    ((jsSplit '-' "-abc").filter (fun t => jsTrim t ≠ "")).length < 2 ∧
    extractMeta "-abc" = ("", "abc") ∧
    (("", "abc") : String × String) ≠ ("Unknown", "-abc") := by
  refine ⟨by decide, by decide, by decide, by decide⟩

/-- C2 (amended): a cleaned title containing a hyphen always splits into at
least two segments, so the code unconditionally takes the trimmed first and
second segments as artist and title — possibly empty strings; the
`"Unknown"`-artist fallback never applies to a hyphen-containing title. -/
theorem c2_no_unknown_fallback (s : String) (h : jsIncludes '-' s = true) :
    2 ≤ (jsSplit '-' s).length ∧
    extractMeta s =
      (jsTrim ((jsSplit '-' s).getD 0 ""), jsTrim ((jsSplit '-' s).getD 1 "")) := by
  have hmem : ('-' : Char) ∈ s.data := by
    rw [jsIncludes] at h
    simpa [List.contains] using h
  have hlen : 2 ≤ (jsSplit '-' s).length := by
    rw [jsSplit, List.length_map]
    exact two_le_splitOnChar_length '-' s.data hmem
  refine ⟨hlen, ?_⟩
  rw [extractMeta]
  simp only [h, if_true, if_pos hlen]

/-- C1 (witness): a two-hyphen title evaluated through the amended
theorem. -/
theorem c1_title_is_second_segment_witness :
    (('-' : Char) ∉ ("Artist X " : String).data) ∧
    extractMeta ("Artist X " ++ "-" ++ " Cool Song-Live") =
      (jsTrim "Artist X ", jsTrim (beforeChar '-' " Cool Song-Live")) :=
  ⟨by decide, c1_title_is_second_segment "Artist X " " Cool Song-Live" (by decide)⟩

/-- C2 (witness): the amended theorem applied to `"a-b"`. -/
theorem c2_no_unknown_fallback_witness :
    jsIncludes '-' "a-b" = true ∧
    (2 ≤ (jsSplit '-' "a-b").length ∧
      extractMeta "a-b" =
        (jsTrim ((jsSplit '-' "a-b").getD 0 ""), jsTrim ((jsSplit '-' "a-b").getD 1 ""))) :=
  ⟨by decide, c2_no_unknown_fallback "a-b" (by decide)⟩

/-- C3: `cleanFileName` removes the ASCII apostrophe (listed twice in
`CHAR_REPLACES`), pipe, slash, question mark, colon and semicolon, but a
curly (typographic) quote U+2019 passes through unchanged — contradicting
the documented intent that curly quotes are removed. -/
theorem c3_curly_quote_survives :
    cleanFileName (String.mk ['a', Char.ofNat 39, 'b']) = "ab" ∧
    cleanFileName "a:b;c?d/e|f’g" = "abcdef’g" ∧
    ("abcdef’g" : String) ≠ "abcdefg" :=
  ⟨by decide, by decide, by decide⟩

/-- C4 (counterexample): with a single format that exposes no audio
bitrate, the bitrate expression dereferences `undefined` and throws — it
does not fall back to `DEFAULT_BITRATE`. -/
theorem c4_counterexample :
    resolveBitrate [{ container := "mp4", audioBitrate := none }] = .error () ∧
    resolveBitrate [{ container := "mp4", audioBitrate := none }] ≠ .ok DEFAULT_BITRATE := by
  refine ⟨rfl, ?_⟩
  intro h
  simp [resolveBitrate, List.find?, audioBitrateTruthy] at h

/-- C4 (amended): the resolved bitrate is the audio bitrate of the first
format variant whose bitrate is truthy; when no variant has a truthy
bitrate the expression throws a `TypeError` (the `?? DEFAULT_BITRATE`
fallback is unreachable). -/
theorem c4_bitrate_first_truthy (formats : List Format) :
    ((∀ f ∈ formats, audioBitrateTruthy f = false) → resolveBitrate formats = .error ()) ∧
    (∀ f, formats.find? audioBitrateTruthy = some f →
      ∃ b, f.audioBitrate = some b ∧ b ≠ 0 ∧ resolveBitrate formats = .ok b) := by
  constructor
  · intro h
    have hn : formats.find? audioBitrateTruthy = none := by
      rw [List.find?_eq_none]
      intro f hf
      simp [h f hf]
    rw [resolveBitrate, hn]
  · intro f hf
    have ht : audioBitrateTruthy f = true := List.find?_some hf
    cases hb : f.audioBitrate with
    | none =>
      rw [audioBitrateTruthy, hb] at ht
      exact absurd ht (by simp)
    | some b =>
      have hb0 : b ≠ 0 := by
        have := ht
        rw [audioBitrateTruthy, hb] at this
        simpa using this
      refine ⟨b, rfl, hb0, ?_⟩
      rw [resolveBitrate, hf]
      show Except.ok (f.audioBitrate.getD DEFAULT_BITRATE) = Except.ok b
      rw [hb]
      rfl

/-- C4 (witness): empty format list throws; a list whose first truthy
bitrate is 128 (after a zero-bitrate variant) resolves to 128. -/
theorem c4_bitrate_first_truthy_witness :
    resolveBitrate [] = .error () ∧
    resolveBitrate [{ container := "webm", audioBitrate := some 0 },
      { container := "mp4", audioBitrate := some 128 }] = .ok 128 := by
  constructor
  · exact (c4_bitrate_first_truthy []).1 (by simp)
  · obtain ⟨b, hb, _, hr⟩ :=
      (c4_bitrate_first_truthy [{ container := "webm", audioBitrate := some 0 },
        { container := "mp4", audioBitrate := some 128 }]).2
        { container := "mp4", audioBitrate := some 128 } (by decide)
    have hb' : b = 128 := by simpa using hb.symm
    subst hb'
    exact hr

/-- C5 (counterexample): a caller object whose `progressTimeout` key is
present with value `undefined` overrides the default 1000 with
`undefined` — `Object.assign` copies present-but-`undefined` keys. -/
theorem c5_counterexample :
    (mergeOptions "/work" (some { progressTimeout := some none })).progressTimeout = none ∧
    (none : Option Nat) ≠ some 1000 :=
  ⟨rfl, by decide⟩

/-- C5 (amended): fields whose key the caller omits keep their documented
defaults (output directory = cwd, quality `"highestaudio"`, sampling
interval 1000, `allowWebm` false), and omitting the whole object yields
exactly the defaults; but a key present in the caller object always wins,
including a key whose value is explicitly `undefined`. -/
theorem c5_defaults_and_undefined_override (cwd : String) (o : CallerOptions) :
    (mergeOptions cwd none = DEFAULT_OPTIONS cwd) ∧
    (o.outputPath = none → (mergeOptions cwd (some o)).outputPath = some cwd) ∧
    (o.youtubeVideoQuality = none →
      (mergeOptions cwd (some o)).youtubeVideoQuality = some "highestaudio") ∧
    (o.progressTimeout = none → (mergeOptions cwd (some o)).progressTimeout = some 1000) ∧
    (o.allowWebm = none → (mergeOptions cwd (some o)).allowWebm = some false) ∧
    (∀ v, o.progressTimeout = some v → (mergeOptions cwd (some o)).progressTimeout = v) := by
  refine ⟨rfl, ?_, ?_, ?_, ?_, ?_⟩
  · intro h
    simp [mergeOptions, assignField, DEFAULT_OPTIONS, h]
  · intro h
    simp [mergeOptions, assignField, DEFAULT_OPTIONS, h]
  · intro h
    simp [mergeOptions, assignField, DEFAULT_OPTIONS, h]
  · intro h
    simp [mergeOptions, assignField, DEFAULT_OPTIONS, h]
  · intro v h
    simp [mergeOptions, assignField, h]

/-- C5 (witness): the amended theorem applied to the empty caller object
and to one carrying an explicitly-`undefined` `progressTimeout`. -/
theorem c5_defaults_and_undefined_override_witness :
    ({} : CallerOptions).outputPath = none ∧
    (mergeOptions "/work" (some {})).outputPath = some "/work" ∧
    ({ progressTimeout := some none } : CallerOptions).progressTimeout = some none ∧
    (mergeOptions "/work" (some { progressTimeout := some none })).progressTimeout = none :=
  ⟨rfl, (c5_defaults_and_undefined_override "/work" {}).2.1 rfl, rfl,
    (c5_defaults_and_undefined_override "/work"
      { progressTimeout := some none }).2.2.2.2.2 none rfl⟩

/-- C6: with no explicit `fileName` option and an empty sanitized title,
the filename stem is the source video ID and `".mp3"` is appended. -/
theorem c6_empty_sanitized_uses_video_id (sanitized videoId : String)
    (h : sanitized = "") :
    downloadBaseName none sanitized videoId = videoId ++ ".mp3" := by
  subst h
  rfl

/-- C6 (witness): the fallback evaluated at a concrete video ID. -/
theorem c6_empty_sanitized_uses_video_id_witness :
    ("" : String) = "" ∧ downloadBaseName none "" "dQw4w9WgXcQ" = "dQw4w9WgXcQ" ++ ".mp3" :=
  ⟨rfl, c6_empty_sanitized_uses_video_id "" "dQw4w9WgXcQ" rfl⟩

/-- The `progress` listener's fold, generalized over the initial value of
the `stats` local. -/
theorem captureStatsFold_isSome (l : List ProgressSample) (acc : Option IResultStats) :
    ((l.foldl (fun acc p => if p.percentage = 100 then some (statsOfSample p) else acc)
        acc).isSome = true) ↔
      (acc.isSome = true ∨ ∃ p ∈ l, p.percentage = 100) := by
  induction l generalizing acc with
  | nil => simp
  | cons x xs ih =>
    rw [List.foldl_cons, ih]
    by_cases hx : x.percentage = 100
    · simp [hx]
    · simp [hx]

/-- `captureStats` yields `some` exactly when some sample hit 100%. -/
theorem captureStats_isSome_iff (samples : List ProgressSample) :
    (captureStats samples).isSome = true ↔ ∃ p ∈ samples, p.percentage = 100 := by
  rw [captureStats, captureStatsFold_isSome]
  simp

/-- C7: the `stats` field of the emitted result is populated exactly when a
progress sample with `percentage === 100` was observed during the run;
otherwise it is left `undefined`. -/
theorem c7_stats_iff_hundred_percent (videoId : String) (opts : IOptions)
    (vd : VideoDetails) (sanitized : String) (thumb : Option String)
    (samples : List ProgressSample) :
    ((buildResult videoId opts vd sanitized thumb samples).stats).isSome = true ↔
      ∃ p ∈ samples, p.percentage = 100 :=
  captureStats_isSome_iff samples

/-- C8 (counterexample): on a filesystem holding only the root, ensuring
the two-level directory `a/b` throws `ENOENT` — `mkdirSync` is called
without `recursive`, so a missing intermediate component is fatal. -/
theorem c8_counterexample :
    ensureDir [[]] ["a", "b"] = .error () ∧
    (ensureDir [[]] ["a", "b"]).isOk = false :=
  ⟨rfl, rfl⟩

/-- C8 (amended): `_ensureDir` treats a pre-existing directory as success,
but creation is single-level, not recursive: when the directory is absent
and its parent is also absent, the call throws instead of creating the
intermediate components. -/
theorem c8_ensure_dir_single_level (fs : FS) (p : List String) :
    (existsSync fs p = true → ensureDir fs p = .ok fs) ∧
    (existsSync fs p = false → existsSync fs p.dropLast = false →
      ensureDir fs p = .error ()) := by
  constructor
  · intro h
    rw [ensureDir, if_pos h]
  · intro h1 h2
    simp [ensureDir, mkdirSync, h1, h2]

/-- C8 (witness): pre-existing `a` is a no-op success; absent `a/b` with
absent parent errors. -/
theorem c8_ensure_dir_single_level_witness :
    existsSync [["a"]] ["a"] = true ∧ ensureDir [["a"]] ["a"] = .ok [["a"]] ∧
    existsSync [[]] ["a", "b"] = false ∧ existsSync [[]] (["a", "b"].dropLast) = false ∧
    ensureDir [[]] ["a", "b"] = .error () :=
  ⟨by decide, (c8_ensure_dir_single_level [["a"]] ["a"]).1 (by decide), by decide, by decide,
    (c8_ensure_dir_single_level [[]] ["a", "b"]).2 (by decide) (by decide)⟩

/-- C9: a caller-supplied `fileName` option is used verbatim as the path
component joined to the output directory — the sanitizer, the video-ID
fallback and the `".mp3"` suffix are all bypassed. -/
theorem c9_explicit_filename_verbatim (opts : IOptions) (f sanitized videoId : String)
    (h : opts.fileName = some f) :
    downloadBaseName opts.fileName sanitized videoId = f ∧
    outputFilePath opts sanitized videoId = pathJoin (opts.outputPath.getD "") f := by
  refine ⟨?_, ?_⟩ <;> simp [downloadBaseName, outputFilePath, h]

/-- C9 (witness): an explicit filename with characters the sanitizer would
strip and no `.mp3` suffix reaches the output path untouched. -/
theorem c9_explicit_filename_verbatim_witness :
    (mergeOptions "/out" (some { fileName := some (some "Keep?Me.webm") })).fileName =
      some "Keep?Me.webm" ∧
    (downloadBaseName
        (mergeOptions "/out" (some { fileName := some (some "Keep?Me.webm") })).fileName
        "sanitized" "vid" = "Keep?Me.webm" ∧
      outputFilePath (mergeOptions "/out" (some { fileName := some (some "Keep?Me.webm") }))
          "sanitized" "vid" =
        pathJoin ((mergeOptions "/out"
          (some { fileName := some (some "Keep?Me.webm") })).outputPath.getD "")
          "Keep?Me.webm") :=
  ⟨rfl, c9_explicit_filename_verbatim
    (mergeOptions "/out" (some { fileName := some (some "Keep?Me.webm") }))
    "Keep?Me.webm" "sanitized" "vid" rfl⟩

/-- C10: the thumbnail derivation is partial: a present non-empty
`thumbnails` array yields the first entry's url, but a present empty array
is truthy in JS, takes the same branch and throws on `thumbnails[0].url`. -/
theorem c10_thumbnail_throws_on_empty (vd : VideoDetails) :
    (∀ t ts, vd.thumbnails = some (t :: ts) → deriveThumbnail vd = .ok (some t.url)) ∧
    (vd.thumbnails = some [] → deriveThumbnail vd = .error ()) := by
  constructor
  · intro t ts h
    simp [deriveThumbnail, h]
  · intro h
    simp [deriveThumbnail, h]

/-- C10 (witness): both branches evaluated on concrete descriptors. -/
theorem c10_thumbnail_throws_on_empty_witness :
    ({ title := "t", videoId := "v", thumbnails := some [{ url := "u" }],
        thumbnail := none } : VideoDetails).thumbnails = some [{ url := "u" }] ∧
    deriveThumbnail
      ({ title := "t", videoId := "v", thumbnails := some [{ url := "u" }],
          thumbnail := none } : VideoDetails) = .ok (some "u") ∧
    ({ title := "t", videoId := "v", thumbnails := some [],
        thumbnail := none } : VideoDetails).thumbnails = some [] ∧
    deriveThumbnail
      ({ title := "t", videoId := "v", thumbnails := some [],
          thumbnail := none } : VideoDetails) = .error () :=
  ⟨rfl,
    (c10_thumbnail_throws_on_empty
      ({ title := "t", videoId := "v", thumbnails := some [{ url := "u" }],
          thumbnail := none } : VideoDetails)).1 { url := "u" } [] rfl,
    rfl,
    (c10_thumbnail_throws_on_empty
      ({ title := "t", videoId := "v", thumbnails := some [],
          thumbnail := none } : VideoDetails)).2 rfl⟩

end YtMp3
